import Mathlib

/-!
Verification development for the resume-analysis service
(FastAPI server, RQ-style worker, two-stage LangGraph workflow).

The embedding models, faithfully to the Python source:
  * `app/db/collections/files.py` — the stored record (`FileRecord`);
  * `app/workflows/resume_analysis.py` — the workflow state, the two
    nodes (`enhance_job_description_node`, `analyze_resume_match_node`)
    and the compiled graph (`create_resume_analysis_workflow`,
    `Workflow.invoke`);
  * `app/queue/workers.py` — `process_file`, rendered as the list of
    externally visible events (database writes, the PDF conversion,
    node executions) it performs, for each outcome of the external
    calls (PDF conversion, the two model calls, the JSON parse);
  * `app/server.py` — `upload_file` and `get_file_by_id`.

External collaborators (MongoDB, the queue, OpenAI, pdf2image) are
oracles: a model call either returns text or raises with a message
(`CallResult`), conversion either yields image paths or raises
(`ConvResult`), and `json.loads` is an arbitrary function
`String → Option ParsedAnalysis`.  Database writes are modelled as
always succeeding, matching the treatment in the spec of the store as a
black box.
-/

namespace ResumeApp

/-- The structured analysis object the worker stores under the `analysis` key of the record (`workers.py`, `analysis_result`).  Because the workflow
state always carries the `match_score` / `improvements` / `weaknesses`
/ `summary` keys, the Python call `final_state.get(k, default)` returns the
stored value even when it is `None`; the fields are therefore
`Option`s. -/
structure AnalysisOut where
  match_score : Option Int
  improvements : Option (List String)
  weaknesses : Option (List String)
  summary : Option String
deriving DecidableEq, Repr

/-- The persisted document for one job (`FileSchema` in
`app/db/collections/files.py` plus the fields the worker adds).
`none` stands for an absent or null field. -/
structure FileRecord where
  name : String
  status : String
  job_description : Option String
  enhanced_job_description : Option String
  result : Option String
  analysis : Option AnalysisOut
  error : Option String
deriving DecidableEq, Repr

/-- State schema `ResumeAnalysisState` from `app/workflows/resume_analysis.py`. -/
structure ResumeAnalysisState where
  file_id : String
  job_description : String
  enhanced_job_description : Option String
  resume_images : List String
  match_score : Option Int
  improvements : Option (List String)
  weaknesses : Option (List String)
  summary : Option String
  error : Option String
deriving DecidableEq, Repr

/-- Outcome of one external model call: the reply text, or the message
`str(e)` of the exception it raised. -/
inductive CallResult where
  | ok (text : String)
  | exn (msg : String)
deriving DecidableEq, Repr

/-- Outcome of `pdf2image.convert_from_path` together with the page
saves: the image paths produced, or the message of the exception
raised. -/
inductive ConvResult where
  | ok (images : List String)
  | exn (msg : String)
deriving DecidableEq, Repr

/-- The projections of a successfully `json.loads`-parsed stage-2 reply
that `analyze_resume_match_node` reads.  A `none` field means the JSON
object lacks that key, so the Python `dict.get` default applies. -/
structure ParsedAnalysis where
  match_score : Option Int
  improvements : Option (List String)
  weaknesses : Option (List String)
  summary : Option String
deriving DecidableEq, Repr

/-- Node 1 of `app/workflows/resume_analysis.py`: on success stores the
model reply verbatim as `enhanced_job_description`; on any exception
`e` inside the `try` stores `"Error enhancing job description: " ++
str(e)` in `error`.  The model call outcome is the oracle `llm1`. -/
def enhance_job_description_node (llm1 : CallResult)
    (state : ResumeAnalysisState) : ResumeAnalysisState :=
  match llm1 with
  | .ok text => { state with enhanced_job_description := some text }
  | .exn e => { state with error := some ("Error enhancing job description: " ++ e) }

/-- Node 2 of `app/workflows/resume_analysis.py`: on a model-call
exception stores a stage-2 error string; on a reply that parses as
JSON stores the parsed fields (with `dict.get` defaults `[]` and
`""`); on `json.JSONDecodeError` stores the raw reply as `summary`,
empties the lists, clears the score and flags the fixed parse-error
message. -/
def analyze_resume_match_node (llm2 : CallResult)
    (parse : String → Option ParsedAnalysis)
    (state : ResumeAnalysisState) : ResumeAnalysisState :=
  match llm2 with
  | .exn e => { state with error := some ("Error analyzing resume: " ++ e) }
  | .ok content =>
    match parse content with
    | some a =>
      { state with
        match_score := a.match_score,
        improvements := some (a.improvements.getD []),
        weaknesses := some (a.weaknesses.getD []),
        summary := some (a.summary.getD "") }
    | none =>
      { state with
        match_score := none,
        improvements := some [],
        weaknesses := some [],
        summary := some content,
        error := some "Could not parse structured response, returning raw text" }

/-- Names of the graph vertices; `END` is the LangGraph terminal. -/
inductive NodeName where
  | enhance_job_description
  | analyze_resume_match
  | END
deriving DecidableEq, Repr

/-- A compiled LangGraph state graph: entry point, successor map, and
the function attached to each node. -/
structure Workflow where
  entry : NodeName
  edges : NodeName → Option NodeName
  nodeFn : NodeName → ResumeAnalysisState → ResumeAnalysisState

/-- Graph built by `create_resume_analysis_workflow` in
`app/workflows/resume_analysis.py`: entry point
`enhance_job_description`, unconditional edges
`enhance_job_description → analyze_resume_match → END`. -/
def create_resume_analysis_workflow (llm1 llm2 : CallResult)
    (parse : String → Option ParsedAnalysis) : Workflow :=
  { entry := .enhance_job_description,
    edges := fun n =>
      match n with
      | .enhance_job_description => some .analyze_resume_match
      | .analyze_resume_match => some .END
      | .END => none,
    nodeFn := fun n =>
      match n with
      | .enhance_job_description => enhance_job_description_node llm1
      | .analyze_resume_match => analyze_resume_match_node llm2 parse
      | .END => id }

/-- Fuel-bounded graph walk: run the current node, follow its outgoing
edge, and record the nodes executed, stopping at `END`.  The fuel
mirrors the LangGraph recursion limit. -/
def runFrom (w : Workflow) :
    Nat → NodeName → ResumeAnalysisState → ResumeAnalysisState × List NodeName
  | 0, _, s => (s, [])
  | Nat.succ fuel, n, s =>
    match n with
    | .END => (s, [])
    | node =>
      let s2 := w.nodeFn node s
      match w.edges node with
      | some m =>
        let rest := runFrom w fuel m s2
        (rest.1, node :: rest.2)
      | none => (s2, [node])

/-- Invocation `workflow.invoke(initial_state)`: walk from the entry point with
the LangGraph default recursion limit of 25.  Returns the final state and
the list of nodes executed, in order. -/
def Workflow.invoke (w : Workflow) (s : ResumeAnalysisState) :
    ResumeAnalysisState × List NodeName :=
  runFrom w 25 w.entry s

/-- The `initial_state` dict built in `process_file`. -/
def initialState (id job_description : String) (images : List String) :
    ResumeAnalysisState :=
  { file_id := id,
    job_description := job_description,
    enhanced_job_description := none,
    resume_images := images,
    match_score := none,
    improvements := none,
    weaknesses := none,
    summary := none,
    error := none }

/-- Python truthiness of an optional string field: `None` and `""` are
falsy, every non-empty string is truthy (`if final_state.get("error"):`
in `workers.py`). -/
def pyTruthy : Option String → Bool
  | none => false
  | some s => s.length != 0

/-- The `$set` documents the code passes to `update_one`:
a bare status write, the status-plus-error write of the worker `except` handler, and the final result write (`update_data`) whose
`error` key is present only when the workflow state carried a truthy
error. -/
inductive UpdateDoc where
  | setStatusOnly (status : String)
  | setStatusError (status : String) (error : String)
  | setFinal (status : String) (enhanced_job_description : Option String)
      (analysis : AnalysisOut) (result : Option String) (error : Option String)
deriving DecidableEq, Repr

/-- Externally visible actions of the handlers and the worker, in
program order: database inserts/updates/deletes keyed by the record
identifier, the disk write, the enqueue, the PDF conversion, and the
execution of a workflow node. -/
inductive Event where
  | dbInsert (id : String) (doc : FileRecord)
  | dbUpdate (id : String) (u : UpdateDoc)
  | dbDelete (id : String)
  | saveToDisc (path : String) (content : String)
  | enqueueJob (id : String) (file_path : String) (job_description : String)
  | convertPdf (file_path : String)
  | nodeRun (n : NodeName)
deriving DecidableEq, Repr

/-- Effect of a `$set` document on a record (Mongo semantics: listed
keys are overwritten, absent keys untouched). -/
def applyUpdate (u : UpdateDoc) (r : FileRecord) : FileRecord :=
  match u with
  | .setStatusOnly st => { r with status := st }
  | .setStatusError st e => { r with status := st, error := some e }
  | .setFinal st ejd an res err =>
    { r with
      status := st,
      enhanced_job_description := ejd,
      analysis := some an,
      result := res,
      error := match err with
               | some e => some e
               | none => r.error }

/-- Effect of one event on the record with identifier `rid`; events
addressed to other records, and non-database events, leave it
unchanged. -/
def applyEvent (rid : String) (r : FileRecord) (e : Event) : FileRecord :=
  match e with
  | .dbInsert id doc => if id = rid then doc else r
  | .dbUpdate id u => if id = rid then applyUpdate u r else r
  | _ => r

/-- The record with identifier `rid` after a trace of events, starting
from `r`. -/
def runTraceOn (rid : String) (t : List Event) (r : FileRecord) : FileRecord :=
  t.foldl (applyEvent rid) r

/-- The status string a `$set` document writes (each update document
the code builds carries one). -/
def statusOfUpdate : UpdateDoc → String
  | .setStatusOnly st => st
  | .setStatusError st _ => st
  | .setFinal st _ _ _ _ => st

/-- Every status value a trace stores: the status of each inserted
document and of each update document, in order. -/
def statusesWritten : List Event → List String
  | [] => []
  | .dbInsert _ doc :: es => doc.status :: statusesWritten es
  | .dbUpdate _ u :: es => statusOfUpdate u :: statusesWritten es
  | _ :: es => statusesWritten es

/-- Is this event the execution of workflow node `n`? -/
def isStage (n : NodeName) : Event → Bool
  | .nodeRun m => m == n
  | _ => false

/-- Is this event a database delete? -/
def isDelete : Event → Bool
  | .dbDelete _ => true
  | _ => false

/-- Is this event the PDF conversion? -/
def isConvert : Event → Bool
  | .convertPdf _ => true
  | _ => false

/-- Is this event a database write (insert or update)? -/
def isDbWrite : Event → Bool
  | .dbInsert _ _ => true
  | .dbUpdate _ _ => true
  | _ => false

/-- Worker entry point `process_file` from `app/queue/workers.py`, as the event trace it
produces.  Oracles: `conv` is the outcome of the PDF conversion and
page saves, `llm1`/`llm2` the two model calls, `parse` the JSON parse.
If conversion raises, the `except` handler writes status `"error"`
with message `"Error processing file: " ++ str(e)`; otherwise the
worker writes the intermediate statuses, runs the compiled workflow,
and performs the final `update_data` write whose status is `"error"`
exactly when the final state carries a truthy error. -/
def process_file (id file_path job_description : String)
    (conv : ConvResult) (llm1 llm2 : CallResult)
    (parse : String → Option ParsedAnalysis) : List Event :=
  match conv with
  | .exn e =>
    [.dbUpdate id (.setStatusOnly "processing"),
     .convertPdf file_path,
     .dbUpdate id (.setStatusError "error" ("Error processing file: " ++ e))]
  | .ok images =>
    let workflow := create_resume_analysis_workflow llm1 llm2 parse
    let invoked := workflow.invoke (initialState id job_description images)
    let final_state := invoked.1
    let analysis_result : AnalysisOut :=
      { match_score := final_state.match_score,
        improvements := final_state.improvements,
        weaknesses := final_state.weaknesses,
        summary := final_state.summary }
    let final_status := if pyTruthy final_state.error then "error" else "completed"
    let final_error := if pyTruthy final_state.error then final_state.error else none
    [.dbUpdate id (.setStatusOnly "processing"),
     .convertPdf file_path,
     .dbUpdate id (.setStatusOnly "conversion complete"),
     .dbUpdate id (.setStatusOnly "enhancing job description")]
    ++ invoked.2.map Event.nodeRun
    ++ [.dbUpdate id (.setStatusOnly "analyzing resume match"),
        .dbUpdate id (.setFinal final_status final_state.enhanced_job_description
          analysis_result final_state.summary final_error)]

/-- Response body of `POST /upload`. -/
structure UploadResponse where
  file_id : String
deriving DecidableEq, Repr

/-- Handler `upload_file` of `POST /upload` in `app/server.py`: insert the record (name,
status `"saving"`, job description), write the uploaded bytes to
`/mnt/uploads/{id}/{filename}`, enqueue `process_file`, set status
`"queued"`, and respond with the inserted identifier as a string.
`inserted_id` is the identifier MongoDB generated for the insert. -/
def upload_file (filename job_description inserted_id file_content : String) :
    List Event × UploadResponse :=
  let doc : FileRecord :=
    { name := filename,
      status := "saving",
      job_description := some job_description,
      enhanced_job_description := none,
      result := none,
      analysis := none,
      error := none }
  let file_path := "/mnt/uploads/" ++ inserted_id ++ "/" ++ filename
  ([.dbInsert inserted_id doc,
    .saveToDisc file_path file_content,
    .enqueueJob inserted_id file_path job_description,
    .dbUpdate inserted_id (.setStatusOnly "queued")],
   { file_id := inserted_id })

/-- A JSON-serialisable value of the `GET /{id}` response dict: null,
a string, or the stored analysis object. -/
inductive RVal where
  | null
  | str (s : String)
  | analysisVal (a : AnalysisOut)
deriving DecidableEq, Repr

/-- An optional string field of the record, as it appears in the
response (`db_file.get(k)`: `None` renders as null). -/
def optStrVal : Option String → RVal
  | none => .null
  | some s => .str s

/-- The optional analysis field of the record, as it appears in the
response. -/
def optAnalysisVal : Option AnalysisOut → RVal
  | none => .null
  | some a => .analysisVal a

/-- Lookup `files_collection.find_one({"_id": ObjectId(id)})` over a store of
records keyed by identifier. -/
def find_one (store : List (String × FileRecord)) (id : String) :
    Option FileRecord :=
  (store.find? (fun p => p.1 == id)).map (fun p => p.2)

/-- Handler `get_file_by_id` of `GET /` + id in `app/server.py`: look the record up and
return the dict literal the handler builds — keys `_id` (the
identifier as a string), `name`, `status`, `job_description`,
`enhanced_job_description`, `result`, `analysis`.  When no record
exists, `db_file` is `None` and the subscript `db_file["_id"]`
raises, modelled as `Except.error`. -/
def get_file_by_id (store : List (String × FileRecord)) (id : String) :
    Except String (List (String × RVal)) :=
  match find_one store id with
  | none => .error "TypeError: NoneType object is not subscriptable"
  | some f => .ok
      [("_id", .str id),
       ("name", .str f.name),
       ("status", .str f.status),
       ("job_description", optStrVal f.job_description),
       ("enhanced_job_description", optStrVal f.enhanced_job_description),
       ("result", optStrVal f.result),
       ("analysis", optAnalysisVal f.analysis)]

/-- Look a key up in a response dict. -/
def respLookup (resp : List (String × RVal)) (k : String) : Option RVal :=
  (resp.find? (fun kv => kv.1 == k)).map (fun kv => kv.2)

/-- Events strictly between the first execution of stage 1 and the
following execution of stage 2. -/
def betweenStages (t : List Event) : List Event :=
  ((t.dropWhile (fun e => !isStage .enhance_job_description e)).drop 1).takeWhile
    (fun e => !isStage .analyze_resume_match e)

/-- Does some database write fall strictly between stage 1 and
stage 2? -/
def writeBetweenStages (t : List Event) : Bool :=
  (betweenStages t).any isDbWrite

/-- Does some database write precede the first execution of stage 1? -/
def writeBeforeStage1 (t : List Event) : Bool :=
  (t.takeWhile (fun e => !isStage .enhance_job_description e)).any isDbWrite

/-- Does some database write follow the first execution of stage 2? -/
def writeAfterStage2 (t : List Event) : Bool :=
  ((t.dropWhile (fun e => !isStage .analyze_resume_match e)).drop 1).any isDbWrite

/-- Kinds of events, forgetting their payloads. -/
inductive EKind where
  | dbWrite
  | dbDeleteK
  | discWrite
  | enqueueK
  | convertK
  | stage1
  | stage2
  | endK
deriving DecidableEq, Repr

/-- The kind of an event. -/
def kindOf : Event → EKind
  | .dbInsert _ _ => .dbWrite
  | .dbUpdate _ _ => .dbWrite
  | .dbDelete _ => .dbDeleteK
  | .saveToDisc _ _ => .discWrite
  | .enqueueJob _ _ _ => .enqueueK
  | .convertPdf _ => .convertK
  | .nodeRun .enhance_job_description => .stage1
  | .nodeRun .analyze_resume_match => .stage2
  | .nodeRun .END => .endK

/-- The workflow state after `workflow.invoke(initial_state)` inside
`process_file`, for given model-call and parse oracles. -/
def finalStateOf (id jd : String) (images : List String)
    (llm1 llm2 : CallResult) (parse : String → Option ParsedAnalysis) :
    ResumeAnalysisState :=
  ((create_resume_analysis_workflow llm1 llm2 parse).invoke
    (initialState id jd images)).1

/-- A sample parsed stage-2 reply, for concrete instantiations. -/
def sampleParsed : ParsedAnalysis :=
  { match_score := some 80,
    improvements := some ["tighten the summary"],
    weaknesses := some ["no cloud experience"],
    summary := some "decent fit" }

/-- A parse oracle that succeeds on every reply with `sampleParsed`. -/
def parseAlwaysOk : String → Option ParsedAnalysis :=
  fun _ => some sampleParsed

/-- A parse oracle that fails on every reply (`json.JSONDecodeError`). -/
def parseAlwaysFail : String → Option ParsedAnalysis :=
  fun _ => none

/-- The trace of one fully successful worker run on concrete inputs. -/
def traceOkSample : List Event :=
  process_file "id1" "/mnt/uploads/id1/r.pdf" "a backend role"
    (.ok ["/mnt/uploads/images/id1/image-0.jpg"])
    (.ok "enhanced description") (.ok "reply text") parseAlwaysOk

/-- A stored record carrying an error message, as the worker leaves it
after a failed run. -/
def sampleErrRecord : FileRecord :=
  { name := "r.pdf",
    status := "error",
    job_description := some "a backend role",
    enhanced_job_description := none,
    result := none,
    analysis := none,
    error := some "Error processing file: boom" }

/-- A freshly uploaded record, as `upload_file` inserts it. -/
def sampleFreshRecord : FileRecord :=
  { name := "r.pdf",
    status := "saving",
    job_description := some "a backend role",
    enhanced_job_description := none,
    result := none,
    analysis := none,
    error := none }

/-! ## Helper lemmas -/

theorem truthy_prefixed (pre e : String) (h : pre.length ≠ 0) :
    pyTruthy (some (pre ++ e)) = true := by
  simp [pyTruthy, String.length_append]
  intro hc
  exact absurd hc h

theorem invoke_create (llm1 llm2 : CallResult)
    (parse : String → Option ParsedAnalysis) (s : ResumeAnalysisState) :
    (create_resume_analysis_workflow llm1 llm2 parse).invoke s =
    (analyze_resume_match_node llm2 parse (enhance_job_description_node llm1 s),
     [NodeName.enhance_job_description, NodeName.analyze_resume_match]) := rfl

theorem finalStateOf_eq (id jd : String) (images : List String)
    (llm1 llm2 : CallResult) (parse : String → Option ParsedAnalysis) :
    finalStateOf id jd images llm1 llm2 parse =
    analyze_resume_match_node llm2 parse
      (enhance_job_description_node llm1 (initialState id jd images)) := rfl

theorem process_file_ok_eq (id fp jd : String) (images : List String)
    (llm1 llm2 : CallResult) (parse : String → Option ParsedAnalysis) :
    process_file id fp jd (.ok images) llm1 llm2 parse =
    [.dbUpdate id (.setStatusOnly "processing"),
     .convertPdf fp,
     .dbUpdate id (.setStatusOnly "conversion complete"),
     .dbUpdate id (.setStatusOnly "enhancing job description"),
     .nodeRun .enhance_job_description,
     .nodeRun .analyze_resume_match,
     .dbUpdate id (.setStatusOnly "analyzing resume match"),
     .dbUpdate id (.setFinal
       (if pyTruthy (finalStateOf id jd images llm1 llm2 parse).error
        then "error" else "completed")
       (finalStateOf id jd images llm1 llm2 parse).enhanced_job_description
       { match_score := (finalStateOf id jd images llm1 llm2 parse).match_score,
         improvements := (finalStateOf id jd images llm1 llm2 parse).improvements,
         weaknesses := (finalStateOf id jd images llm1 llm2 parse).weaknesses,
         summary := (finalStateOf id jd images llm1 llm2 parse).summary }
       (finalStateOf id jd images llm1 llm2 parse).summary
       (if pyTruthy (finalStateOf id jd images llm1 llm2 parse).error
        then (finalStateOf id jd images llm1 llm2 parse).error else none))] := rfl

theorem runTraceOn_exn (id fp jd e : String) (llm1 llm2 : CallResult)
    (parse : String → Option ParsedAnalysis) (r0 : FileRecord) :
    runTraceOn id (process_file id fp jd (.exn e) llm1 llm2 parse) r0 =
    { r0 with status := "error", error := some ("Error processing file: " ++ e) } := by
  simp [process_file, runTraceOn, applyEvent, applyUpdate]

theorem runTraceOn_ok_err (id fp jd : String) (images : List String)
    (llm1 llm2 : CallResult) (parse : String → Option ParsedAnalysis)
    (r0 : FileRecord) (msg : String)
    (ho : (finalStateOf id jd images llm1 llm2 parse).error = some msg)
    (hm : msg.length ≠ 0) :
    runTraceOn id (process_file id fp jd (.ok images) llm1 llm2 parse) r0 =
    { r0 with
      status := "error",
      enhanced_job_description := (finalStateOf id jd images llm1 llm2 parse).enhanced_job_description,
      analysis := some
        { match_score := (finalStateOf id jd images llm1 llm2 parse).match_score,
          improvements := (finalStateOf id jd images llm1 llm2 parse).improvements,
          weaknesses := (finalStateOf id jd images llm1 llm2 parse).weaknesses,
          summary := (finalStateOf id jd images llm1 llm2 parse).summary },
      result := (finalStateOf id jd images llm1 llm2 parse).summary,
      error := some msg } := by
  have htm : pyTruthy (some msg) = true := by simp [pyTruthy, hm]
  rw [process_file_ok_eq]
  simp [runTraceOn, applyEvent, applyUpdate, ho, htm]

theorem runTraceOn_ok_noerr (id fp jd : String) (images : List String)
    (llm1 llm2 : CallResult) (parse : String → Option ParsedAnalysis)
    (r0 : FileRecord)
    (ho : (finalStateOf id jd images llm1 llm2 parse).error = none) :
    runTraceOn id (process_file id fp jd (.ok images) llm1 llm2 parse) r0 =
    { r0 with
      status := "completed",
      enhanced_job_description := (finalStateOf id jd images llm1 llm2 parse).enhanced_job_description,
      analysis := some
        { match_score := (finalStateOf id jd images llm1 llm2 parse).match_score,
          improvements := (finalStateOf id jd images llm1 llm2 parse).improvements,
          weaknesses := (finalStateOf id jd images llm1 llm2 parse).weaknesses,
          summary := (finalStateOf id jd images llm1 llm2 parse).summary },
      result := (finalStateOf id jd images llm1 llm2 parse).summary,
      error := r0.error } := by
  have ht : pyTruthy (finalStateOf id jd images llm1 llm2 parse).error = false := by
    rw [ho]; simp [pyTruthy]
  rw [process_file_ok_eq]
  simp [runTraceOn, applyEvent, applyUpdate, ht]

theorem fsError_llm2_exn (id jd e2 : String) (images : List String)
    (llm1 : CallResult) (parse : String → Option ParsedAnalysis) :
    (finalStateOf id jd images llm1 (.exn e2) parse).error =
    some ("Error analyzing resume: " ++ e2) := rfl

theorem fsError_parse_none (id jd c : String) (images : List String)
    (llm1 : CallResult) (parse : String → Option ParsedAnalysis)
    (hp : parse c = none) :
    (finalStateOf id jd images llm1 (.ok c) parse).error =
    some "Could not parse structured response, returning raw text" := by
  simp [finalStateOf_eq, analyze_resume_match_node, hp]

theorem fsError_parse_some (id jd c : String) (images : List String)
    (llm1 : CallResult) (parse : String → Option ParsedAnalysis)
    (a : ParsedAnalysis) (hp : parse c = some a) :
    (finalStateOf id jd images llm1 (.ok c) parse).error =
    (enhance_job_description_node llm1 (initialState id jd images)).error := by
  simp [finalStateOf_eq, analyze_resume_match_node, hp]

/-! ## Claim theorems -/

/-- Claim C7: for every upload request with a file and a job_description
field, the handler performs, in this order: create a record holding the
file name, status "saving", and the job description; write the file
bytes to storage; enqueue a processing job for the record identifier;
and return a response whose file_id is that identifier as a string. -/
theorem C7_upload_pipeline (filename jd iid content : String) :
    List.Sublist
      [Event.dbInsert iid
        { name := filename, status := "saving", job_description := some jd,
          enhanced_job_description := none, result := none, analysis := none,
          error := none },
       Event.saveToDisc ("/mnt/uploads/" ++ iid ++ "/" ++ filename) content,
       Event.enqueueJob iid ("/mnt/uploads/" ++ iid ++ "/" ++ filename) jd]
      (upload_file filename jd iid content).1 ∧
    (upload_file filename jd iid content).2.file_id = iid :=
  ⟨List.sublist_append_left _ _, rfl⟩

/-- Claim C10: for every identifier with no record in the store, the
handler of GET by id subscripts the `None` returned by `find_one` and
so raises (modelled as `Except.error`) instead of returning a
not-found response. -/
theorem C10_get_missing_raises (store : List (String × FileRecord))
    (id : String) (h : find_one store id = none) :
    get_file_by_id store id =
      .error "TypeError: NoneType object is not subscriptable" := by
  simp [get_file_by_id, h]

/-- Witness for C10: the empty store at a concrete identifier. -/
theorem C10_get_missing_raises_witness :
    get_file_by_id [] "missing" =
      .error "TypeError: NoneType object is not subscriptable" :=
  C10_get_missing_raises [] "missing" rfl

/-- Counterexample to claim C1: a stored record whose error field is
set is found by the handler, yet the returned snapshot has no "error"
key at all — the response dict built in `get_file_by_id` omits the
error message field, so the snapshot does not contain all of the
record fields. -/
theorem C1_counterexample :
    find_one [("id1", sampleErrRecord)] "id1" = some sampleErrRecord ∧
    sampleErrRecord.error = some "Error processing file: boom" ∧
    (∀ resp, get_file_by_id [("id1", sampleErrRecord)] "id1" = .ok resp →
      respLookup resp "error" = none) := by
  refine ⟨rfl, rfl, ?_⟩
  intro resp hresp
  cases hresp
  rfl

/-- Claim C1 as amended: for every record stored for an identifier, the
GET handler returns a snapshot containing all of the record fields
verbatim except the optional error message field, which is omitted;
the identifier is rendered as a string. -/
theorem C1_amended_get_snapshot (store : List (String × FileRecord))
    (id : String) (f : FileRecord) (h : find_one store id = some f) :
    get_file_by_id store id = .ok
      [("_id", .str id),
       ("name", .str f.name),
       ("status", .str f.status),
       ("job_description", optStrVal f.job_description),
       ("enhanced_job_description", optStrVal f.enhanced_job_description),
       ("result", optStrVal f.result),
       ("analysis", optAnalysisVal f.analysis)] ∧
    respLookup
      [("_id", .str id),
       ("name", .str f.name),
       ("status", .str f.status),
       ("job_description", optStrVal f.job_description),
       ("enhanced_job_description", optStrVal f.enhanced_job_description),
       ("result", optStrVal f.result),
       ("analysis", optAnalysisVal f.analysis)] "error" = none := by
  constructor
  · simp [get_file_by_id, h]
  · rfl

/-- Witness for the amended C1, on a concrete store and record. -/
theorem C1_amended_get_snapshot_witness :
    get_file_by_id [("id1", sampleErrRecord)] "id1" = .ok
      [("_id", .str "id1"),
       ("name", .str sampleErrRecord.name),
       ("status", .str sampleErrRecord.status),
       ("job_description", optStrVal sampleErrRecord.job_description),
       ("enhanced_job_description", optStrVal sampleErrRecord.enhanced_job_description),
       ("result", optStrVal sampleErrRecord.result),
       ("analysis", optAnalysisVal sampleErrRecord.analysis)] ∧
    respLookup
      [("_id", .str "id1"),
       ("name", .str sampleErrRecord.name),
       ("status", .str sampleErrRecord.status),
       ("job_description", optStrVal sampleErrRecord.job_description),
       ("enhanced_job_description", optStrVal sampleErrRecord.enhanced_job_description),
       ("result", optStrVal sampleErrRecord.result),
       ("analysis", optAnalysisVal sampleErrRecord.analysis)] "error" = none :=
  C1_amended_get_snapshot [("id1", sampleErrRecord)] "id1" sampleErrRecord rfl

/-- Claim C8: every run of `process_file` terminates — it is a total
function producing a non-empty trace — and the last status value it
writes to the record is either "completed" or "error". -/
theorem C8_terminal_status (id fp jd : String) (conv : ConvResult)
    (llm1 llm2 : CallResult) (parse : String → Option ParsedAnalysis) :
    process_file id fp jd conv llm1 llm2 parse ≠ [] ∧
    ((statusesWritten (process_file id fp jd conv llm1 llm2 parse)).getLast? =
        some "completed" ∨
     (statusesWritten (process_file id fp jd conv llm1 llm2 parse)).getLast? =
        some "error") := by
  cases conv with
  | exn e => exact ⟨by simp [process_file], Or.inr rfl⟩
  | ok images =>
    refine ⟨by rw [process_file_ok_eq]; simp, ?_⟩
    have hs : statusesWritten (process_file id fp jd (.ok images) llm1 llm2 parse) =
        ["processing", "conversion complete", "enhancing job description",
         "analyzing resume match",
         if pyTruthy (finalStateOf id jd images llm1 llm2 parse).error
         then "error" else "completed"] := rfl
    rw [hs]
    cases hb : pyTruthy (finalStateOf id jd images llm1 llm2 parse).error
    · exact Or.inl rfl
    · exact Or.inr rfl

theorem append_len_ne_zero (p e : String) (h : p.length ≠ 0) :
    (p ++ e).length ≠ 0 := by
  rw [String.length_append]; omega

/-- Claim C2: for every exception raised during worker processing (file
conversion, model call, or JSON parse), `process_file` catches it
rather than propagating it — the record for the job ends with status
"error" and an error message in its error field — and no retry is
attempted: the conversion and each workflow stage execute at most
once. -/
theorem C2_worker_error_handling (id fp jd : String) (conv : ConvResult)
    (llm1 llm2 : CallResult) (parse : String → Option ParsedAnalysis)
    (r0 : FileRecord)
    (hfail : (∃ e, conv = .exn e) ∨ (∃ e, llm1 = .exn e) ∨ (∃ e, llm2 = .exn e) ∨
             (∃ c, llm2 = .ok c ∧ parse c = none)) :
    (runTraceOn id (process_file id fp jd conv llm1 llm2 parse) r0).status = "error" ∧
    (runTraceOn id (process_file id fp jd conv llm1 llm2 parse) r0).error.isSome = true ∧
    (process_file id fp jd conv llm1 llm2 parse).countP isConvert ≤ 1 ∧
    (process_file id fp jd conv llm1 llm2 parse).countP (isStage .enhance_job_description) ≤ 1 ∧
    (process_file id fp jd conv llm1 llm2 parse).countP (isStage .analyze_resume_match) ≤ 1 := by
  have hcounts : (process_file id fp jd conv llm1 llm2 parse).countP isConvert ≤ 1 ∧
      (process_file id fp jd conv llm1 llm2 parse).countP (isStage .enhance_job_description) ≤ 1 ∧
      (process_file id fp jd conv llm1 llm2 parse).countP (isStage .analyze_resume_match) ≤ 1 := by
    cases conv with
    | exn e =>
      refine ⟨?_, ?_, ?_⟩ <;>
        simp [process_file, List.countP_cons, List.countP_nil, isConvert, isStage]
    | ok images =>
      rw [process_file_ok_eq]
      refine ⟨?_, ?_, ?_⟩ <;>
        simp [List.countP_cons, List.countP_nil, isConvert, isStage]
  have hrec : (runTraceOn id (process_file id fp jd conv llm1 llm2 parse) r0).status = "error" ∧
      (runTraceOn id (process_file id fp jd conv llm1 llm2 parse) r0).error.isSome = true := by
    cases conv with
    | exn e =>
      rw [runTraceOn_exn]
      exact ⟨rfl, rfl⟩
    | ok images =>
      have hmsg : ∃ msg, (finalStateOf id jd images llm1 llm2 parse).error = some msg ∧
          msg.length ≠ 0 := by
        rcases hfail with ⟨e, he⟩ | ⟨e, he⟩ | ⟨e, he⟩ | ⟨c, hc, hp⟩
        · exact ConvResult.noConfusion he
        · subst he
          cases llm2 with
          | exn e2 =>
            exact ⟨_, fsError_llm2_exn id jd e2 images _ parse,
              append_len_ne_zero _ _ (by decide)⟩
          | ok c2 =>
            cases hp2 : parse c2 with
            | none =>
              exact ⟨_, fsError_parse_none id jd c2 images _ parse hp2, by decide⟩
            | some a =>
              refine ⟨"Error enhancing job description: " ++ e, ?_,
                append_len_ne_zero _ _ (by decide)⟩
              rw [fsError_parse_some id jd c2 images _ parse a hp2]
              rfl
        · subst he
          exact ⟨_, fsError_llm2_exn id jd e images llm1 parse,
            append_len_ne_zero _ _ (by decide)⟩
        · subst hc
          exact ⟨_, fsError_parse_none id jd c images llm1 parse hp, by decide⟩
      obtain ⟨msg, ho, hm⟩ := hmsg
      rw [runTraceOn_ok_err id fp jd images llm1 llm2 parse r0 msg ho hm]
      exact ⟨rfl, rfl⟩
  exact ⟨hrec.1, hrec.2, hcounts.1, hcounts.2.1, hcounts.2.2⟩

/-- Witness for C2: a concrete run whose PDF conversion raises. -/
theorem C2_worker_error_handling_witness :
    (runTraceOn "id1"
      (process_file "id1" "/mnt/uploads/id1/r.pdf" "a backend role"
        (.exn "poppler missing") (.ok "E") (.ok "R") parseAlwaysOk)
      sampleFreshRecord).status = "error" ∧
    (runTraceOn "id1"
      (process_file "id1" "/mnt/uploads/id1/r.pdf" "a backend role"
        (.exn "poppler missing") (.ok "E") (.ok "R") parseAlwaysOk)
      sampleFreshRecord).error.isSome = true ∧
    (process_file "id1" "/mnt/uploads/id1/r.pdf" "a backend role"
      (.exn "poppler missing") (.ok "E") (.ok "R") parseAlwaysOk).countP isConvert ≤ 1 ∧
    (process_file "id1" "/mnt/uploads/id1/r.pdf" "a backend role"
      (.exn "poppler missing") (.ok "E") (.ok "R") parseAlwaysOk).countP
        (isStage .enhance_job_description) ≤ 1 ∧
    (process_file "id1" "/mnt/uploads/id1/r.pdf" "a backend role"
      (.exn "poppler missing") (.ok "E") (.ok "R") parseAlwaysOk).countP
        (isStage .analyze_resume_match) ≤ 1 :=
  C2_worker_error_handling "id1" "/mnt/uploads/id1/r.pdf" "a backend role"
    (.exn "poppler missing") (.ok "E") (.ok "R") parseAlwaysOk sampleFreshRecord
    (Or.inl ⟨"poppler missing", rfl⟩)

/-- Claim C4: when the stage-2 model reply fails to parse as JSON, the
final workflow state stores the raw reply as the summary, sets the
error field, leaves the match score unset and both lists empty; the
record receives that analysis and the raw reply as its result; and the
worker completes without raising, executing its full event sequence. -/
theorem C4_parse_failure (id fp jd c : String) (images : List String)
    (llm1 : CallResult) (parse : String → Option ParsedAnalysis)
    (r0 : FileRecord) (hp : parse c = none) :
    (finalStateOf id jd images llm1 (.ok c) parse).summary = some c ∧
    (finalStateOf id jd images llm1 (.ok c) parse).error =
      some "Could not parse structured response, returning raw text" ∧
    (finalStateOf id jd images llm1 (.ok c) parse).match_score = none ∧
    (finalStateOf id jd images llm1 (.ok c) parse).improvements = some [] ∧
    (finalStateOf id jd images llm1 (.ok c) parse).weaknesses = some [] ∧
    (runTraceOn id (process_file id fp jd (.ok images) llm1 (.ok c) parse) r0).result =
      some c ∧
    (runTraceOn id (process_file id fp jd (.ok images) llm1 (.ok c) parse) r0).analysis =
      some { match_score := none, improvements := some [], weaknesses := some [],
             summary := some c } ∧
    (process_file id fp jd (.ok images) llm1 (.ok c) parse).map kindOf =
      [.dbWrite, .convertK, .dbWrite, .dbWrite, .stage1, .stage2, .dbWrite, .dbWrite] := by
  have ho := fsError_parse_none id jd c images llm1 parse hp
  have hsum : (finalStateOf id jd images llm1 (.ok c) parse).summary = some c := by
    simp [finalStateOf_eq, analyze_resume_match_node, hp]
  have hms : (finalStateOf id jd images llm1 (.ok c) parse).match_score = none := by
    simp [finalStateOf_eq, analyze_resume_match_node, hp]
  have himp : (finalStateOf id jd images llm1 (.ok c) parse).improvements = some [] := by
    simp [finalStateOf_eq, analyze_resume_match_node, hp]
  have hwk : (finalStateOf id jd images llm1 (.ok c) parse).weaknesses = some [] := by
    simp [finalStateOf_eq, analyze_resume_match_node, hp]
  have hrec := runTraceOn_ok_err id fp jd images llm1 (.ok c) parse r0 _ ho (by decide)
  refine ⟨hsum, ho, hms, himp, hwk, ?_, ?_, rfl⟩
  · rw [hrec]
    simpa using hsum
  · rw [hrec]
    simp [hms, himp, hwk, hsum]

/-- Witness for C4, with a parse oracle that always fails. -/
theorem C4_parse_failure_witness :
    (finalStateOf "id1" "a backend role" ["i0"] (.ok "E") (.ok "raw reply")
      parseAlwaysFail).summary = some "raw reply" ∧
    (finalStateOf "id1" "a backend role" ["i0"] (.ok "E") (.ok "raw reply")
      parseAlwaysFail).error =
      some "Could not parse structured response, returning raw text" ∧
    (finalStateOf "id1" "a backend role" ["i0"] (.ok "E") (.ok "raw reply")
      parseAlwaysFail).match_score = none ∧
    (finalStateOf "id1" "a backend role" ["i0"] (.ok "E") (.ok "raw reply")
      parseAlwaysFail).improvements = some [] ∧
    (finalStateOf "id1" "a backend role" ["i0"] (.ok "E") (.ok "raw reply")
      parseAlwaysFail).weaknesses = some [] ∧
    (runTraceOn "id1"
      (process_file "id1" "/mnt/uploads/id1/r.pdf" "a backend role" (.ok ["i0"])
        (.ok "E") (.ok "raw reply") parseAlwaysFail) sampleFreshRecord).result =
      some "raw reply" ∧
    (runTraceOn "id1"
      (process_file "id1" "/mnt/uploads/id1/r.pdf" "a backend role" (.ok ["i0"])
        (.ok "E") (.ok "raw reply") parseAlwaysFail) sampleFreshRecord).analysis =
      some { match_score := none, improvements := some [], weaknesses := some [],
             summary := some "raw reply" } ∧
    (process_file "id1" "/mnt/uploads/id1/r.pdf" "a backend role" (.ok ["i0"])
      (.ok "E") (.ok "raw reply") parseAlwaysFail).map kindOf =
      [.dbWrite, .convertK, .dbWrite, .dbWrite, .stage1, .stage2, .dbWrite, .dbWrite] :=
  C4_parse_failure "id1" "/mnt/uploads/id1/r.pdf" "a backend role" "raw reply" ["i0"]
    (.ok "E") parseAlwaysFail sampleFreshRecord rfl

/-- Claim C9: the edge from stage 1 to stage 2 is unconditional — the
graph maps `enhance_job_description` to `analyze_resume_match`, and
every invocation executes both nodes in order — and when stage 1
failed, stage 2 runs with the enhanced job description still unset
(`none`); if stage 2 then succeeds (its reply parses), the stage-1
error survives in the state it returns. -/
theorem C9_unconditional_edge (id jd e c : String) (images : List String)
    (llm1 llm2 : CallResult) (parse : String → Option ParsedAnalysis)
    (s : ResumeAnalysisState) (a : ParsedAnalysis) (hp : parse c = some a) :
    ((create_resume_analysis_workflow llm1 llm2 parse).edges .enhance_job_description =
      some .analyze_resume_match) ∧
    (((create_resume_analysis_workflow llm1 llm2 parse).invoke s).2 =
      [NodeName.enhance_job_description, NodeName.analyze_resume_match]) ∧
    ((enhance_job_description_node (.exn e)
        (initialState id jd images)).enhanced_job_description = none) ∧
    ((finalStateOf id jd images (.exn e) (.ok c) parse).enhanced_job_description = none) ∧
    ((finalStateOf id jd images (.exn e) (.ok c) parse).error =
      some ("Error enhancing job description: " ++ e)) := by
  refine ⟨rfl, rfl, rfl, ?_, ?_⟩
  · simp [finalStateOf_eq, analyze_resume_match_node, hp, enhance_job_description_node,
      initialState]
  · rw [fsError_parse_some id jd c images _ parse a hp]
    rfl

/-- Witness for C9 at concrete inputs, with a parse oracle that
succeeds. -/
theorem C9_unconditional_edge_witness :
    ((create_resume_analysis_workflow (.exn "quota") (.ok "reply") parseAlwaysOk).edges
        .enhance_job_description = some .analyze_resume_match) ∧
    (((create_resume_analysis_workflow (.exn "quota") (.ok "reply") parseAlwaysOk).invoke
        (initialState "id1" "a backend role" ["i0"])).2 =
      [NodeName.enhance_job_description, NodeName.analyze_resume_match]) ∧
    ((enhance_job_description_node (.exn "quota")
        (initialState "id1" "a backend role" ["i0"])).enhanced_job_description = none) ∧
    ((finalStateOf "id1" "a backend role" ["i0"] (.exn "quota") (.ok "reply")
        parseAlwaysOk).enhanced_job_description = none) ∧
    ((finalStateOf "id1" "a backend role" ["i0"] (.exn "quota") (.ok "reply")
        parseAlwaysOk).error = some ("Error enhancing job description: " ++ "quota")) :=
  C9_unconditional_edge "id1" "a backend role" "quota" "reply" ["i0"]
    (.exn "quota") (.ok "reply") parseAlwaysOk
    (initialState "id1" "a backend role" ["i0"]) sampleParsed rfl

theorem fsEnhanced_llm1_ok (id jd text : String) (images : List String)
    (llm2 : CallResult) (parse : String → Option ParsedAnalysis) :
    (finalStateOf id jd images (.ok text) llm2 parse).enhanced_job_description =
      some text := by
  cases llm2 with
  | exn e2 => rfl
  | ok c2 =>
    cases hp2 : parse c2 with
    | none =>
      simp [finalStateOf_eq, analyze_resume_match_node, hp2, enhance_job_description_node]
    | some a2 =>
      simp [finalStateOf_eq, analyze_resume_match_node, hp2, enhance_job_description_node]

/-- Counterexample to claim C6: in a fully successful run both stages
execute, yet no database write falls between stage 1 and stage 2 — so
it is false that a status update is written after stage 1 completes
and before stage 2 begins. -/
theorem C6_counterexample :
    traceOkSample.countP (isStage .enhance_job_description) = 1 ∧
    traceOkSample.countP (isStage .analyze_resume_match) = 1 ∧
    writeBetweenStages traceOkSample = false := by decide

/-- Claim C6 as amended: in every worker run that reaches the workflow,
a status update is written before stage 1 and after stage 2, each stage
executes exactly once, and no status update is written between stage 1
completing and stage 2 beginning — the "analyzing resume match" update
is performed only after both stages have run, and the first four
statuses written are "processing", "conversion complete", "enhancing
job description", "analyzing resume match". -/
theorem C6_amended_stage_writes (id fp jd : String) (images : List String)
    (llm1 llm2 : CallResult) (parse : String → Option ParsedAnalysis) :
    writeBeforeStage1 (process_file id fp jd (.ok images) llm1 llm2 parse) = true ∧
    writeAfterStage2 (process_file id fp jd (.ok images) llm1 llm2 parse) = true ∧
    writeBetweenStages (process_file id fp jd (.ok images) llm1 llm2 parse) = false ∧
    (process_file id fp jd (.ok images) llm1 llm2 parse).countP
      (isStage .enhance_job_description) = 1 ∧
    (process_file id fp jd (.ok images) llm1 llm2 parse).countP
      (isStage .analyze_resume_match) = 1 ∧
    (statusesWritten (process_file id fp jd (.ok images) llm1 llm2 parse)).take 4 =
      ["processing", "conversion complete", "enhancing job description",
       "analyzing resume match"] :=
  ⟨rfl, rfl, rfl, rfl, rfl, rfl⟩

/-- Counterexample to claim C5: stage 1 raises (message "E1") and stage
2 also raises ("E2"); the record then carries the stage-2 error string,
not one derived from the stage-1 exception. -/
theorem C5_counterexample :
    (runTraceOn "id1"
      (process_file "id1" "/mnt/uploads/id1/r.pdf" "a backend role" (.ok ["i0"])
        (.exn "E1") (.exn "E2") parseAlwaysFail) sampleFreshRecord).error =
      some "Error analyzing resume: E2" ∧
    (runTraceOn "id1"
      (process_file "id1" "/mnt/uploads/id1/r.pdf" "a backend role" (.ok ["i0"])
        (.exn "E1") (.exn "E2") parseAlwaysFail) sampleFreshRecord).error ≠
      some ("Error enhancing job description: " ++ "E1") := by decide

/-- Claim C5 as amended: when the stage-1 model call returns text, that
text is stored unchanged as the enhanced job description in the state
and then on the record, whatever stage 2 does; when the stage-1 call
raises, the exception is caught and the derived error string is
recorded in the workflow state, reaching the record error field
provided stage 2 succeeds and its reply parses (a stage-2 failure
overwrites it with a stage-2 error string); the stage-1 call is not
retried. -/
theorem C5_amended_stage1 (id fp jd text e c : String) (images : List String)
    (llm2 : CallResult) (parse : String → Option ParsedAnalysis)
    (a : ParsedAnalysis) (r0 : FileRecord) (hp : parse c = some a) :
    ((enhance_job_description_node (.ok text)
        (initialState id jd images)).enhanced_job_description = some text) ∧
    ((finalStateOf id jd images (.ok text) llm2 parse).enhanced_job_description =
      some text) ∧
    ((runTraceOn id (process_file id fp jd (.ok images) (.ok text) llm2 parse)
        r0).enhanced_job_description = some text) ∧
    ((enhance_job_description_node (.exn e) (initialState id jd images)).error =
      some ("Error enhancing job description: " ++ e)) ∧
    ((runTraceOn id (process_file id fp jd (.ok images) (.exn e) (.ok c) parse)
        r0).error = some ("Error enhancing job description: " ++ e)) ∧
    ((process_file id fp jd (.ok images) (.exn e) llm2 parse).countP
      (isStage .enhance_job_description) = 1) := by
  refine ⟨rfl, fsEnhanced_llm1_ok id jd text images llm2 parse, ?_, rfl, ?_, ?_⟩
  · cases llm2 with
    | exn e2 =>
      rw [runTraceOn_ok_err id fp jd images (.ok text) (.exn e2) parse r0 _
        (fsError_llm2_exn id jd e2 images (.ok text) parse)
        (append_len_ne_zero _ _ (by decide))]
      simpa using fsEnhanced_llm1_ok id jd text images (.exn e2) parse
    | ok c2 =>
      cases hp2 : parse c2 with
      | none =>
        rw [runTraceOn_ok_err id fp jd images (.ok text) (.ok c2) parse r0 _
          (fsError_parse_none id jd c2 images (.ok text) parse hp2) (by decide)]
        simpa using fsEnhanced_llm1_ok id jd text images (.ok c2) parse
      | some a2 =>
        have ho : (finalStateOf id jd images (.ok text) (.ok c2) parse).error = none := by
          rw [fsError_parse_some id jd c2 images (.ok text) parse a2 hp2]
          rfl
        rw [runTraceOn_ok_noerr id fp jd images (.ok text) (.ok c2) parse r0 ho]
        simpa using fsEnhanced_llm1_ok id jd text images (.ok c2) parse
  · have ho : (finalStateOf id jd images (.exn e) (.ok c) parse).error =
        some ("Error enhancing job description: " ++ e) := by
      rw [fsError_parse_some id jd c images (.exn e) parse a hp]
      rfl
    rw [runTraceOn_ok_err id fp jd images (.exn e) (.ok c) parse r0 _ ho
      (append_len_ne_zero _ _ (by decide))]
  · rw [process_file_ok_eq]
    simp [List.countP_cons, List.countP_nil, isStage]

/-- Witness for the amended C5, with a parse oracle that succeeds. -/
theorem C5_amended_stage1_witness :
    ((enhance_job_description_node (.ok "an enhanced jd")
        (initialState "id1" "a backend role" ["i0"])).enhanced_job_description =
      some "an enhanced jd") ∧
    ((finalStateOf "id1" "a backend role" ["i0"] (.ok "an enhanced jd") (.ok "reply")
        parseAlwaysOk).enhanced_job_description = some "an enhanced jd") ∧
    ((runTraceOn "id1"
        (process_file "id1" "/mnt/uploads/id1/r.pdf" "a backend role" (.ok ["i0"])
          (.ok "an enhanced jd") (.ok "reply") parseAlwaysOk)
        sampleFreshRecord).enhanced_job_description = some "an enhanced jd") ∧
    ((enhance_job_description_node (.exn "quota")
        (initialState "id1" "a backend role" ["i0"])).error =
      some ("Error enhancing job description: " ++ "quota")) ∧
    ((runTraceOn "id1"
        (process_file "id1" "/mnt/uploads/id1/r.pdf" "a backend role" (.ok ["i0"])
          (.exn "quota") (.ok "reply") parseAlwaysOk) sampleFreshRecord).error =
      some ("Error enhancing job description: " ++ "quota")) ∧
    ((process_file "id1" "/mnt/uploads/id1/r.pdf" "a backend role" (.ok ["i0"])
        (.exn "quota") (.ok "reply") parseAlwaysOk).countP
      (isStage .enhance_job_description) = 1) :=
  C5_amended_stage1 "id1" "/mnt/uploads/id1/r.pdf" "a backend role" "an enhanced jd"
    "quota" "reply" ["i0"] (.ok "reply") parseAlwaysOk sampleParsed
    sampleFreshRecord rfl

/-- Counterexample to claim C3: the upload handler writes the status
"queued" after enqueueing the job, a value outside the set of statuses
the claim enumerates. -/
theorem C3_counterexample :
    "queued" ∈ statusesWritten (upload_file "r.pdf" "a backend role" "id1" "bytes").1 ∧
    "queued" ∉ (["saving", "processing", "conversion complete",
      "enhancing job description", "analyzing resume match", "completed",
      "error"] : List String) := by decide

/-- Claim C3 as amended: every status string written by the intake
handler or by the worker is one of "saving", "queued" (written by the
intake handler after enqueueing), "processing", "conversion complete",
"enhancing job description", "analyzing resume match", "completed",
"error"; and no operation of either path ever deletes a record. -/
theorem C3_amended_status_set (filename jd iid content wid fp wjd : String)
    (conv : ConvResult) (llm1 llm2 : CallResult)
    (parse : String → Option ParsedAnalysis) (s : String)
    (hs : s ∈ statusesWritten (upload_file filename jd iid content).1 ++
          statusesWritten (process_file wid fp wjd conv llm1 llm2 parse)) :
    s ∈ (["saving", "queued", "processing", "conversion complete",
      "enhancing job description", "analyzing resume match", "completed",
      "error"] : List String) ∧
    (upload_file filename jd iid content).1.countP isDelete = 0 ∧
    (process_file wid fp wjd conv llm1 llm2 parse).countP isDelete = 0 := by
  refine ⟨?_, rfl, ?_⟩
  · have hup : statusesWritten (upload_file filename jd iid content).1 =
        ["saving", "queued"] := rfl
    cases conv with
    | exn e =>
      have hw : statusesWritten (process_file wid fp wjd (.exn e) llm1 llm2 parse) =
          ["processing", "error"] := rfl
      rw [hup, hw] at hs
      simp at hs
      simp only [List.mem_cons]
      tauto
    | ok images =>
      have hw : statusesWritten (process_file wid fp wjd (.ok images) llm1 llm2 parse) =
          ["processing", "conversion complete", "enhancing job description",
           "analyzing resume match",
           if pyTruthy (finalStateOf wid wjd images llm1 llm2 parse).error
           then "error" else "completed"] := rfl
      rw [hup, hw] at hs
      cases hb : pyTruthy (finalStateOf wid wjd images llm1 llm2 parse).error <;>
        rw [hb] at hs <;> simp at hs <;> simp only [List.mem_cons] <;> tauto
  · cases conv with
    | exn e => rfl
    | ok images => rfl

/-- Witness for the amended C3: the status "queued" written by a
concrete upload is in the amended set, and the concrete traces contain
no delete. -/
theorem C3_amended_status_set_witness :
    "queued" ∈ (["saving", "queued", "processing", "conversion complete",
      "enhancing job description", "analyzing resume match", "completed",
      "error"] : List String) ∧
    (upload_file "r.pdf" "a backend role" "id1" "bytes").1.countP isDelete = 0 ∧
    (process_file "id1" "/mnt/uploads/id1/r.pdf" "a backend role" (.ok ["i0"])
      (.ok "E") (.ok "R") parseAlwaysOk).countP isDelete = 0 :=
  C3_amended_status_set "r.pdf" "a backend role" "id1" "bytes" "id1"
    "/mnt/uploads/id1/r.pdf" "a backend role" (.ok ["i0"]) (.ok "E") (.ok "R")
    parseAlwaysOk "queued" (by decide)

end ResumeApp
